import Mathlib

/-
  Verification of the incremental evaluation engine of IRust
  (src/src/irust/parser.rs).

  The `Repl` fragment store, the `Printer` presentation type, the output
  formatter and the cargo toolchain live outside the parser source; where a
  claim depends on them they are modelled from the specification, and each
  such definition carries a doc comment starting with `Modelled from the
  spec:`.  Everything else is a direct shallow embedding of parser.rs.

  Rust string primitives are embedded as structurally recursive functions
  over `List Char` so that every definition evaluates inside the kernel.
-/

/-! ## String primitives (embedding of the Rust `str` operations used) -/

/-- Embedding of Rust `str::trim`: strip whitespace from both ends. -/
def strTrim (s : String) : String :=
  ⟨((s.data.dropWhile Char.isWhitespace).reverse.dropWhile Char.isWhitespace).reverse⟩

/-- Embedding of Rust `str::starts_with` on a string pattern. -/
def strStartsWith (s pat : String) : Bool :=
  pat.data.isPrefixOf s.data

/-- Embedding of Rust `str::ends_with` on a string pattern. -/
def strEndsWith (s pat : String) : Bool :=
  pat.data.isSuffixOf s.data

/-- Whether `pat` occurs as a contiguous infix of `l`
(embeds Rust `str::find(..).is_some()` / `str::contains`). -/
def listIsInfixOf : List Char → List Char → Bool
  | pat, [] => pat.isEmpty
  | pat, c :: cs => pat.isPrefixOf (c :: cs) || listIsInfixOf pat cs

/-- Embedding of Rust `str::contains` on a string pattern. -/
def containsStr (s pat : String) : Bool :=
  listIsInfixOf pat.data s.data

/-- Helper for `splitWhitespace`: accumulate the current word (reversed). -/
def splitWsAux : List Char → List Char → List String
  | [], acc => if acc.isEmpty then [] else [⟨acc.reverse⟩]
  | c :: cs, acc =>
    if c.isWhitespace then
      if acc.isEmpty then splitWsAux cs [] else ⟨acc.reverse⟩ :: splitWsAux cs []
    else
      splitWsAux cs (c :: acc)

/-- Embedding of Rust `str::split_whitespace` (non-empty words only). -/
def splitWhitespace (s : String) : List String :=
  splitWsAux s.data []

/-- Fuel-driven splitter on a (non-empty) separator pattern;
fuel is the length of the text, which bounds the number of steps. -/
def splitOnGo (sep : List Char) : Nat → List Char → List Char → List (List Char)
  | _, [], acc => [acc.reverse]
  | 0, rest, acc => [acc.reverse ++ rest]
  | fuel + 1, c :: cs, acc =>
    if sep ≠ [] ∧ sep.isPrefixOf (c :: cs) then
      acc.reverse :: splitOnGo sep fuel ((c :: cs).drop sep.length) []
    else
      splitOnGo sep fuel cs (c :: acc)

/-- Embedding of Rust `str::split` on a string separator (left to right). -/
def splitOnChars (sep : List Char) (l : List Char) : List (List Char) :=
  splitOnGo sep l.length l []

/-- Embedding of Rust `str::lines`: split on newline, strip a trailing
carriage return from each line, and drop a final empty segment. -/
def rustLines (s : String) : List String :=
  let parts := splitOnChars [Char.ofNat 10] s.data
  let parts := match parts.getLast? with
    | some [] => parts.dropLast
    | _ => parts
  parts.map (fun l => ⟨if l.getLast? = some (Char.ofNat 13) then l.dropLast else l⟩)

/-- Embedding of Rust `str::rsplit(sep).next().unwrap()`: the text after the
last occurrence of `sep` (the whole string when `sep` does not occur). -/
def rsplitFirst (s sep : String) : String :=
  ⟨((splitOnChars sep.data s.data).getLast?).getD []⟩

/-! ## Data model -/

/-- The display categories of printed items (printer.rs is outside src/;
only the categories used by the parser are modelled). -/
inductive PrinterItemType where
  | ok
  | err
  | value
  | shell
deriving DecidableEq, Repr

/-- One element of the output stream handed to the renderer. -/
inductive PrinterItem where
  | item (s : String) (k : PrinterItemType)
  | newLine (n : Nat)
deriving DecidableEq, Repr

/-- The output of one parser operation: a list of printable items. -/
abbrev Printer := List PrinterItem

/-- `Printer::new(PrinterItem::new(SUCCESS, Ok))` — the bare `Ok!` item. -/
def okPrinter : Printer := [PrinterItem.item "Ok!" PrinterItemType.ok]

/-- The `Ok!` item followed by `add_new_line(1)`, as produced by
`reset`, `pop`, `del`, `add_dep` and `load_inner`. -/
def successPrinter : Printer :=
  [PrinterItem.item "Ok!" PrinterItemType.ok, PrinterItem.newLine 1]

/-- The error kinds of the engine (spec section 7; the concrete Rust
`IRustError` enum is outside src/). -/
inductive IRustError where
  | toolchainUnavailable
  | invalidIndex
  | emptyStore
  | invalidDependencyPath
  | ioFailure
  | nonUtf8Content
  | unknownType
  | missingArgument
  | custom (s : String)
deriving DecidableEq, Repr

/-- Toolchain verdict of one build/run cycle (spec section 3). -/
inductive Verdict where
  | compileError (text : String)
  | runtimeFailure (text : String)
  | success (printed : Option String)
deriving DecidableEq, Repr

/-- Modelled from the spec: Fragment Store `append` (section 4.1) — the
body of `Repl::insert`, which is not under src/, appends the accepted
fragment at the end of the ordered Body. -/
def Repl.insert (body : List String) (input : String) : List String :=
  body ++ [input]

/-- Modelled from the spec: Fragment Store `pop_last` (section 4.1) — the
body of `Repl::pop`, which is not under src/, removes the most recently
appended fragment and is a no-op on an empty Body. -/
def Repl.pop (body : List String) : List String :=
  body.dropLast

/-- Modelled from the spec: the Expression path of the Session Controller
(section 4.5) together with the Output Classifier (section 4.4) — the
bodies of `Repl::eval` and `format_eval_output` are not under src/.  The
candidate `(body, input)` is built and run; on `Success` the fragment is
appended and the optional printed value rendered; on `CompileError` or
`RuntimeFailure` the Body is left untouched and the failure text is
surfaced for display. -/
def evalExpression (verdict : Verdict) (body : List String) (input : String) :
    List String × Printer :=
  match verdict with
  | Verdict.success none => (Repl.insert body input, [])
  | Verdict.success (some v) =>
      (Repl.insert body input,
        [PrinterItem.item v PrinterItemType.value, PrinterItem.newLine 1])
  | Verdict.compileError t =>
      (body, [PrinterItem.item t PrinterItemType.err, PrinterItem.newLine 1])
  | Verdict.runtimeFailure t =>
      (body, [PrinterItem.item t PrinterItemType.err, PrinterItem.newLine 1])

/-! ## parse_second_order (parser.rs lines 213-258) -/

/-- The three outcomes of the literal classification in
`parse_second_order`. -/
inductive Cls where
  | noop
  | declaration
  | expression
deriving DecidableEq, Repr

/-- The classification performed at the head of `parse_second_order`:
the trimmed buffer is empty, or it matches one of the declaration
markers (`ends_with(';')`, `fn `, `async fn `, `enum `, `struct `,
`trait `, `impl `, `#`, `pub `), or it is an expression. -/
def classify (buffer : String) : Cls :=
  let t := strTrim buffer
  if t = "" then Cls.noop
  else if strEndsWith t ";"
      || strStartsWith t "fn "
      || strStartsWith t "async fn "
      || strStartsWith t "enum "
      || strStartsWith t "struct "
      || strStartsWith t "trait "
      || strStartsWith t "impl "
      || strStartsWith t "#"
      || strStartsWith t "pub " then Cls.declaration
  else Cls.expression

/-- Embedding of `parse_second_order`: the empty branch returns the default
(empty) printer; the declaration branch inserts the untrimmed buffer into
the Body and returns the default printer; the expression branch evaluates
the buffer transactionally.  `verdict` is the toolchain's verdict for the
candidate program. -/
def parse_second_order (verdict : Verdict) (body : List String) (buffer : String) :
    List String × Printer :=
  match classify buffer with
  | Cls.noop => (body, [])
  | Cls.declaration => (Repl.insert body buffer, [])
  | Cls.expression => evalExpression verdict body buffer

/-! ## pop (parser.rs lines 38-44) -/

/-- Embedding of the `pop` directive: `self.repl.pop()` (whose unit result
is not inspected) followed by an unconditional `Ok!` success printer. -/
def pop (body : List String) : List String × Except IRustError Printer :=
  (Repl.pop body, Except.ok successPrinter)

/-! ## del (parser.rs lines 46-55) -/

/-- The argument handed to `repl.del`: the last whitespace-separated token
of the buffer, when there is one. -/
def delArg (buffer : String) : Option String :=
  (splitWhitespace buffer).getLast?

/-- Embedding of the `del` directive: when the buffer has a last
whitespace-separated token it is passed to `repl.del` (whose error, if
any, propagates); in every non-error case the `Ok!` printer is returned.
`replDel` stands for `Repl::del`, which is not under src/. -/
def del (replDel : String → Except IRustError Unit) (buffer : String) :
    Except IRustError Printer :=
  match delArg buffer with
  | some lineNum =>
    match replDel lineNum with
    | Except.error e => Except.error e
    | Except.ok _ => Except.ok successPrinter
  | none => Except.ok successPrinter

/-! ## add_dep (parser.rs lines 63-96) -/

/-- Embedding of the canonicalization loop of `add_dep` (lines 74-85).
`canon` stands for the composite of `std::path::Path::canonicalize` and
`PathBuf::to_str`, two external calls:
`canon p = none` is a canonicalization error (`Err(e) => return Err`,
line 82, the error being `InvalidDependencyPath` modelled from the spec,
sections 4.5 and 7); `canon p = some none` is a canonical path that is
not valid UTF-8, in which case the `if let` at lines 78-80 does not fire
and the original token is kept unchanged without error;
`canon p = some (some fullP)` replaces the token with `fullP`.
Only tokens containing `/` are looked up. -/
def canonicalizeDeps (canon : String → Option (Option String)) :
    List String → Except IRustError (List String)
  | [] => Except.ok []
  | p :: rest =>
    if p.data.contains '/' then
      match canon p with
      | none => Except.error IRustError.invalidDependencyPath
      | some none => (canonicalizeDeps canon rest).map (fun r => p :: r)
      | some (some fullP) => (canonicalizeDeps canon rest).map (fun r => fullP :: r)
    else
      (canonicalizeDeps canon rest).map (fun r => p :: r)

/-- Embedding of `add_dep`: the dependency tokens are the
whitespace-separated words of the buffer after the directive word; after
canonicalization they are recorded in the manifest (Modelled from the
spec: `Repl::add_dep` appends the specifiers to the Manifest Dependency
List, section 4.5) and the subsequent fallible tail of lines 87-90
(`cursor.save_position`, `wait_add` of the add, `wait_add` of the forced
rebuild, `write_newline`) runs as the oracle `rebuild`; its error
surfaces after the manifest mutation, which is not rolled back (Modelled
from the spec: the manifest is edited optimistically, section 4.5).  A
canonicalization failure is returned before anything is recorded. -/
def add_dep (canon : String → Option (Option String))
    (rebuild : List String → Except IRustError Unit) (manifest : List String)
    (buffer : String) : List String × Except IRustError Printer :=
  match canonicalizeDeps canon ((splitWhitespace buffer).drop 1) with
  | Except.error e => (manifest, Except.error e)
  | Except.ok dep =>
    match rebuild dep with
    | Except.error e => (manifest ++ dep, Except.error e)
    | Except.ok _ => (manifest ++ dep, Except.ok successPrinter)

/-! ## load_inner (parser.rs lines 117-148) -/

/-- The persisted cross-session path state (spec section 6): the
last-loaded file path and the previous working directory. -/
structure KnownPaths where
  lastLoadedCodedPath : Option String
  pwd : String
deriving DecidableEq, Repr

/-- Modelled from the spec: `format_err` (format.rs is not under src/)
renders the toolchain's error text verbatim as an error item. -/
def format_err (out : String) : Printer :=
  [PrinterItem.item out PrinterItemType.err]

/-- The external collaborators of `load_inner`, passed as oracles:
`std::fs::read`, `String::from_utf8`, `cargo_fmt`, `remove_main`,
`Repl::eval_build` and `output_is_err` are all outside src/. -/
structure LoadEnv where
  readFile : String → Except IRustError (List Nat)
  decodeUtf8 : List Nat → Option String
  cargoFmt : String → Except IRustError String
  removeMain : String → String
  evalBuildOut : String → Except IRustError String
  outputIsErr : String → Bool

/-- Embedding of `load_inner`: record the path as last-loaded, reset the
Body, read and decode the file, format it, strip the entry point, build
the result as one batch; on an error-classified build output return the
formatted error with the Body still empty, otherwise insert the code as
the new Body and report success. -/
def load_inner (env : LoadEnv) (kp : KnownPaths) (path : String) :
    KnownPaths × List String × Except IRustError Printer :=
  let kp' := { kp with lastLoadedCodedPath := some path }
  match env.readFile path with
  | Except.error e => (kp', [], Except.error e)
  | Except.ok bytes =>
    match env.decodeUtf8 bytes with
    | none => (kp', [], Except.error (IRustError.custom "The specified file is not utf8 encoded"))
    | some code =>
      match env.cargoFmt code with
      | Except.error e => (kp', [], Except.error e)
      | Except.ok fmtd =>
        let code := env.removeMain fmtd
        match env.evalBuildOut code with
        | Except.error e => (kp', [], Except.error e)
        | Except.ok out =>
          if env.outputIsErr out then (kp', [], Except.ok (format_err out))
          else (kp', Repl.insert [] code, Except.ok successPrinter)

/-! ## show_type (parser.rs lines 150-194) -/

/-- The diagnostic marker for a recovered type. -/
def TYPE_FOUND_MSG : String := "expected `()`, found "

/-- The marker of a clean compile, which means the unit type. -/
def EMPTY_TYPE_MSG : String := "dev [unoptimized + debuginfo]"

/-- The textual classification of the raw toolchain output inside
`show_type`: when the expected/found diagnostic is present the type name
is recovered from the last line mentioning `found`; when the clean-build
marker is present the type is the unit type; otherwise the literal
`Uknown` marker is produced. -/
def showTypeVarType (raw : String) : String :=
  if containsStr raw TYPE_FOUND_MSG then
    match (rustLines raw).reverse.find? (fun l => containsStr l "found") with
    | some l => rsplitFirst l "found "
    | none => ""
  else if containsStr raw EMPTY_TYPE_MSG then "()"
  else "Uknown"

/-- Embedding of `show_type`: the shadow-session evaluation yields the raw
toolchain output (or an error, which propagates); its classification is
returned as a successful `Ok`-typed printer item. -/
def show_type (tmpOut : Except IRustError String) : Except IRustError Printer :=
  tmpOut.map (fun raw => [PrinterItem.item (showTypeVarType raw) PrinterItemType.ok])

/-! ## extern_edit (parser.rs lines 260-295) -/

/-- Embedding of the resynchronization tail of `extern_edit` (lines
285-294): `updateResult` is the outcome of `Repl::update_from_main_file`
(Modelled from the spec: re-deriving a new Body from the edited working
file, section 4.5); on success the re-derived Body stands with a bare
`Ok!` item, on failure the Body is reset to empty and the error is
returned. -/
def extern_edit (updateResult : Except IRustError (List String)) :
    List String × Except IRustError Printer :=
  match updateResult with
  | Except.ok newBody => (newBody, Except.ok okPrinter)
  | Except.error e => ([], Except.error e)

/-! ## Concrete environments used to exercise the theorems -/

/-- A canonicalization oracle on which every filesystem lookup fails. -/
def canonNone : String → Option (Option String) := fun _ => none

/-- A canonicalization oracle on which the path `a/b` canonicalizes
successfully but the canonical path is not valid UTF-8. -/
def canonNotUtf8 : String → Option (Option String) :=
  fun p => if p = "a/b" then some none else none

/-- A post-record add/build tail that always succeeds. -/
def rebuildOk : List String → Except IRustError Unit := fun _ => Except.ok ()

/-- A load environment holding one well-formed file `good.rs`. -/
def loadEnvW : LoadEnv where
  readFile := fun p => if p = "good.rs" then Except.ok [115] else Except.error IRustError.ioFailure
  decodeUtf8 := fun b => if b = [115] then some "struct S;" else none
  cargoFmt := fun c => Except.ok c
  removeMain := fun c => c
  evalBuildOut := fun _ => Except.ok "Finished dev [unoptimized + debuginfo]"
  outputIsErr := fun o => containsStr o "error"

/-- A load environment whose build step reports a compile error. -/
def loadEnvE : LoadEnv where
  readFile := fun p => if p = "bad.rs" then Except.ok [116] else Except.error IRustError.ioFailure
  decodeUtf8 := fun b => if b = [116] then some "struct T" else none
  cargoFmt := fun c => Except.ok c
  removeMain := fun c => c
  evalBuildOut := fun _ => Except.ok "error: expected one of"
  outputIsErr := fun o => containsStr o "error"

/-! ## Theorems -/

/-- C1: If an input classified as an Expression fails to build or run (the
toolchain verdict is CompileError or RuntimeFailure), the Session Body
after the attempt is byte-for-byte identical to the Body before it: the
failure text is returned to the caller and no fragment is appended. -/
theorem expression_failure_leaves_body_unchanged
    (verdict : Verdict) (body : List String) (buffer t : String)
    (hc : classify buffer = Cls.expression)
    (hv : verdict = Verdict.compileError t ∨ verdict = Verdict.runtimeFailure t) :
    parse_second_order verdict body buffer =
      (body, [PrinterItem.item t PrinterItemType.err, PrinterItem.newLine 1]) := by
  rcases hv with h | h <;> subst h <;> simp [parse_second_order, hc, evalExpression]

/-- Witness for C1 at a concrete failing expression. -/
theorem expression_failure_leaves_body_unchanged_witness :
    parse_second_order (Verdict.compileError "mismatched types") ["let a = 1;"] "1 + one" =
      (["let a = 1;"],
        [PrinterItem.item "mismatched types" PrinterItemType.err, PrinterItem.newLine 1]) :=
  expression_failure_leaves_body_unchanged _ _ _ _ (by decide) (Or.inl rfl)

/-- C3 counterexample: a Declaration-classified input is appended even when
the toolchain verdict for the candidate is a CompileError, and the empty
default printer is returned, so no error text reaches the caller. -/
theorem declaration_compile_error_still_appended :
    classify "fn bad(" = Cls.declaration ∧
    parse_second_order (Verdict.compileError "expected one of") [] "fn bad(" =
      (["fn bad("], []) ∧
    (parse_second_order (Verdict.compileError "expected one of") [] "fn bad(").1 ≠ [] := by
  refine ⟨by decide, by decide, by decide⟩

/-- C3 (amended): when an input is classified as a Declaration it is
appended to the Body unconditionally — no build gates the commit, the
result does not depend on any toolchain verdict, and no error text is
ever reported on this path. -/
theorem declaration_appended_unconditionally
    (verdict : Verdict) (body : List String) (buffer : String)
    (hc : classify buffer = Cls.declaration) :
    parse_second_order verdict body buffer = (body ++ [buffer], []) := by
  simp [parse_second_order, hc, Repl.insert]

/-- Witness for the amended C3 at a concrete declaration. -/
theorem declaration_appended_unconditionally_witness :
    parse_second_order (Verdict.runtimeFailure "panicked") ["let q = 1;"] "struct S;" =
      (["let q = 1;", "struct S;"], []) :=
  declaration_appended_unconditionally _ _ _ (by decide)

/-- C4: after an external-edit session, if re-deriving the Body from the
edited working file fails, the entire session Body is reset to empty and
the error is returned; it is never left in a partially-merged state. -/
theorem extern_edit_resets_on_failure (e : IRustError) :
    extern_edit (Except.error e) = ([], Except.error e) := rfl

/-- C6 counterexample: pop on an empty Body reports the plain `Ok!`
success printer to the caller, not an `EmptyStore` error. -/
theorem pop_empty_counterexample :
    pop [] = ([], Except.ok successPrinter) ∧
    (pop []).2 ≠ Except.error IRustError.emptyStore :=
  ⟨rfl, fun h => Except.noConfusion h⟩

/-- C6 (amended): invoking pop on an empty Body does not alter any state
(the Body stays empty) and unconditionally reports success (`Ok!`); no
`EmptyStore` error is surfaced to the caller. -/
theorem pop_empty_is_noop_and_reports_ok :
    pop [] = ([], Except.ok successPrinter) := rfl

/-- C8: for every type-introspection query, if neither the expected/found
diagnostic pattern nor the empty-type marker is present in the toolchain
output, the operation reports the unknown-type marker (the literal
`Uknown`) as its successful result rather than returning an error. -/
theorem show_type_unknown_on_missing_patterns (raw : String)
    (h1 : containsStr raw TYPE_FOUND_MSG = false)
    (h2 : containsStr raw EMPTY_TYPE_MSG = false) :
    show_type (Except.ok raw) =
      Except.ok [PrinterItem.item "Uknown" PrinterItemType.ok] := by
  simp [show_type, showTypeVarType, h1, h2, Except.map]

/-- Witness for C8 at a concrete diagnostic-free output. -/
theorem show_type_unknown_on_missing_patterns_witness :
    show_type (Except.ok "warning: unused variable") =
      Except.ok [PrinterItem.item "Uknown" PrinterItemType.ok] :=
  show_type_unknown_on_missing_patterns _ (by decide) (by decide)

/-- C9: the delete directive always takes the last whitespace-separated
token of the input line as its index argument; for the bare input `:del`
the literal token `:del` is passed to the delete operation, and the only
errors the directive can return are those produced by the delete
operation itself on that token (no separate missing-argument error). -/
theorem del_passes_last_token
    (replDel : String → Except IRustError Unit) (buffer : String) :
    delArg buffer = (splitWhitespace buffer).getLast? ∧
    delArg ":del" = some ":del" ∧
    (∀ e, del replDel buffer = Except.error e →
      ∃ t, delArg buffer = some t ∧ replDel t = Except.error e) := by
  refine ⟨rfl, by decide, ?_⟩
  intro e h
  cases harg : delArg buffer with
  | none => simp [del, harg] at h
  | some t =>
    cases hr : replDel t with
    | error e2 =>
      simp [del, harg, hr] at h
      subst h
      exact ⟨t, rfl, hr⟩

    | ok u => simp [del, harg, hr] at h

/-- Witness for C9: the bare `:del` input passes the token `:del`. -/
theorem del_passes_last_token_witness :
    delArg ":del" = some ":del" :=
  (del_passes_last_token (fun _ => Except.ok ()) ":del").2.1

/-- C2: for every input, classification is decided purely by the literal
form of the trimmed text: empty input produces a no-op result; text
ending in `;` or beginning with `fn `, `async fn `, `enum `, `struct `,
`trait `, `impl `, `#`, or `pub ` is classified a Declaration; every
other non-empty input is classified an Expression and evaluated. -/
theorem classification_decided_by_literal_form (buffer : String) :
    (classify buffer = Cls.noop ↔ strTrim buffer = "") ∧
    (classify buffer = Cls.declaration ↔
      (strTrim buffer ≠ "" ∧
        (strEndsWith (strTrim buffer) ";" = true ∨
         strStartsWith (strTrim buffer) "fn " = true ∨
         strStartsWith (strTrim buffer) "async fn " = true ∨
         strStartsWith (strTrim buffer) "enum " = true ∨
         strStartsWith (strTrim buffer) "struct " = true ∨
         strStartsWith (strTrim buffer) "trait " = true ∨
         strStartsWith (strTrim buffer) "impl " = true ∨
         strStartsWith (strTrim buffer) "#" = true ∨
         strStartsWith (strTrim buffer) "pub " = true))) ∧
    (classify buffer = Cls.expression ↔
      (strTrim buffer ≠ "" ∧
        ¬(strEndsWith (strTrim buffer) ";" = true ∨
          strStartsWith (strTrim buffer) "fn " = true ∨
          strStartsWith (strTrim buffer) "async fn " = true ∨
          strStartsWith (strTrim buffer) "enum " = true ∨
          strStartsWith (strTrim buffer) "struct " = true ∨
          strStartsWith (strTrim buffer) "trait " = true ∨
          strStartsWith (strTrim buffer) "impl " = true ∨
          strStartsWith (strTrim buffer) "#" = true ∨
          strStartsWith (strTrim buffer) "pub " = true))) ∧
    (classify buffer = Cls.noop →
      ∀ v body, parse_second_order v body buffer = (body, [])) ∧
    (classify buffer = Cls.expression →
      ∀ v body, parse_second_order v body buffer = evalExpression v body buffer) := by
  by_cases ht : strTrim buffer = ""
  · have hc : classify buffer = Cls.noop := by simp [classify, ht]
    refine ⟨by simp [hc, ht], by simp [hc, ht], by simp [hc, ht], ?_, ?_⟩
    · intro _ v body; simp [parse_second_order, hc]
    · intro h; rw [hc] at h; exact absurd h (by decide)
  · by_cases hd : (strEndsWith (strTrim buffer) ";"
        || strStartsWith (strTrim buffer) "fn "
        || strStartsWith (strTrim buffer) "async fn "
        || strStartsWith (strTrim buffer) "enum "
        || strStartsWith (strTrim buffer) "struct "
        || strStartsWith (strTrim buffer) "trait "
        || strStartsWith (strTrim buffer) "impl "
        || strStartsWith (strTrim buffer) "#"
        || strStartsWith (strTrim buffer) "pub ") = true
    · have hc : classify buffer = Cls.declaration := by
        simp only [classify]
        rw [if_neg ht, if_pos hd]
      have hdisj : strEndsWith (strTrim buffer) ";" = true ∨
          strStartsWith (strTrim buffer) "fn " = true ∨
          strStartsWith (strTrim buffer) "async fn " = true ∨
          strStartsWith (strTrim buffer) "enum " = true ∨
          strStartsWith (strTrim buffer) "struct " = true ∨
          strStartsWith (strTrim buffer) "trait " = true ∨
          strStartsWith (strTrim buffer) "impl " = true ∨
          strStartsWith (strTrim buffer) "#" = true ∨
          strStartsWith (strTrim buffer) "pub " = true := by
        simp only [Bool.or_eq_true] at hd
        tauto
      refine ⟨?_, ?_, ?_, ?_, ?_⟩
      · rw [hc]; constructor
        · intro h; exact absurd h (by decide)
        · intro h; exact absurd h ht
      · rw [hc]; constructor
        · intro _; exact ⟨ht, hdisj⟩
        · intro _; rfl
      · rw [hc]; constructor
        · intro h; exact absurd h (by decide)
        · rintro ⟨-, hnd⟩; exact absurd hdisj hnd
      · intro h; rw [hc] at h; exact absurd h (by decide)
      · intro h; rw [hc] at h; exact absurd h (by decide)
    · have hc : classify buffer = Cls.expression := by
        simp only [classify]
        rw [if_neg ht, if_neg hd]
      have hnd : ¬(strEndsWith (strTrim buffer) ";" = true ∨
          strStartsWith (strTrim buffer) "fn " = true ∨
          strStartsWith (strTrim buffer) "async fn " = true ∨
          strStartsWith (strTrim buffer) "enum " = true ∨
          strStartsWith (strTrim buffer) "struct " = true ∨
          strStartsWith (strTrim buffer) "trait " = true ∨
          strStartsWith (strTrim buffer) "impl " = true ∨
          strStartsWith (strTrim buffer) "#" = true ∨
          strStartsWith (strTrim buffer) "pub " = true) := by
        simp only [Bool.or_eq_true] at hd
        tauto
      refine ⟨?_, ?_, ?_, ?_, ?_⟩
      · rw [hc]; constructor
        · intro h; exact absurd h (by decide)
        · intro h; exact absurd h ht
      · rw [hc]; constructor
        · intro h; exact absurd h (by decide)
        · rintro ⟨-, hdj⟩; exact absurd hdj hnd
      · rw [hc]; constructor
        · intro _; exact ⟨ht, hnd⟩
        · intro _; rfl
      · intro h; rw [hc] at h; exact absurd h (by decide)
      · intro _ v body; simp [parse_second_order, hc]

/-- Witness for C2 at concrete inputs of all three classes. -/
theorem classification_decided_by_literal_form_witness :
    classify " let x = 5; " = Cls.declaration ∧
    classify "x + 1" = Cls.expression ∧
    classify "   " = Cls.noop := by
  refine ⟨?_, ?_, ?_⟩
  · exact (classification_decided_by_literal_form " let x = 5; ").2.1.mpr
      ⟨by decide, Or.inl (by decide)⟩
  · exact (classification_decided_by_literal_form "x + 1").2.2.1.mpr
      ⟨by decide, by decide⟩
  · exact (classification_decided_by_literal_form "   ").1.mpr (by decide)

/-- C5: load/reload resets the Body before validating the loaded file:
the file is read, formatted, stripped of its entry point, and built as
one batch; on build success the Body is replaced with the file's
contents, and on build failure the error is reported and the Body is
left empty (the reset is not rolled back). -/
theorem load_inner_resets_then_validates
    (env : LoadEnv) (kp : KnownPaths) (path : String)
    (bytes : List Nat) (code fmtd out : String)
    (hr : env.readFile path = Except.ok bytes)
    (hd : env.decodeUtf8 bytes = some code)
    (hf : env.cargoFmt code = Except.ok fmtd)
    (hb : env.evalBuildOut (env.removeMain fmtd) = Except.ok out) :
    (env.outputIsErr out = false →
      load_inner env kp path =
        ({ kp with lastLoadedCodedPath := some path },
          [env.removeMain fmtd], Except.ok successPrinter)) ∧
    (env.outputIsErr out = true →
      load_inner env kp path =
        ({ kp with lastLoadedCodedPath := some path },
          [], Except.ok (format_err out))) := by
  constructor <;> intro h <;> simp [load_inner, hr, hd, hf, hb, h, Repl.insert]

/-- Witness for C5: one successful load and one load whose batch build
reports a compile error; the latter leaves the Body empty. -/
theorem load_inner_resets_then_validates_witness :
    load_inner loadEnvW ⟨none, "/home/u"⟩ "good.rs" =
      (⟨some "good.rs", "/home/u"⟩, ["struct S;"], Except.ok successPrinter) ∧
    load_inner loadEnvE ⟨none, "/home/u"⟩ "bad.rs" =
      (⟨some "bad.rs", "/home/u"⟩, [], Except.ok (format_err "error: expected one of")) := by
  constructor
  · exact (load_inner_resets_then_validates loadEnvW ⟨none, "/home/u"⟩ "good.rs"
      [115] "struct S;" "struct S;" "Finished dev [unoptimized + debuginfo]"
      rfl rfl rfl rfl).1 (by decide)
  · exact (load_inner_resets_then_validates loadEnvE ⟨none, "/home/u"⟩ "bad.rs"
      [116] "struct T" "struct T" "error: expected one of"
      rfl rfl rfl rfl).2 (by decide)

/-- C10: `load_inner` records the given path as the last-loaded path in
every outcome — including read, decode, format and build failures — and
touches no other persisted path state (the stored working directory is
unchanged). -/
theorem load_inner_records_path_first (env : LoadEnv) (kp : KnownPaths) (path : String) :
    (load_inner env kp path).1 = { kp with lastLoadedCodedPath := some path } ∧
    ((load_inner env kp path).1).pwd = kp.pwd := by
  have h1 : (load_inner env kp path).1 = { kp with lastLoadedCodedPath := some path } := by
    simp only [load_inner]
    repeat' split
    all_goals rfl
  exact ⟨h1, by rw [h1]⟩

/-- Every entry of a successful canonicalization either was a token
without a path separator kept verbatim, or is the absolute
canonicalization of some path, or is a path-form token kept unchanged
because its canonical path is not valid UTF-8. -/
theorem canonicalizeDeps_ok_mem (canon : String → Option (Option String))
    (habs : ∀ p q, canon p = some (some q) → strStartsWith q "/" = true) :
    ∀ (l l' : List String), canonicalizeDeps canon l = Except.ok l' →
      ∀ q ∈ l', (q ∈ l ∧ q.data.contains '/' = false) ∨
        (strStartsWith q "/" = true ∧ ∃ p, canon p = some (some q)) ∨
        (q ∈ l ∧ canon q = some none) := by
  intro l
  induction l with
  | nil =>
    intro l' h q hq
    simp [canonicalizeDeps] at h
    subst h
    simp at hq
  | cons p rest ih =>
    intro l' h q hq
    simp only [canonicalizeDeps] at h
    by_cases hp : p.data.contains '/' = true
    · rw [if_pos hp] at h
      cases hcp : canon p with
      | none => rw [hcp] at h; exact absurd h (by simp)
      | some fpOpt =>
        cases fpOpt with
        | none =>
          rw [hcp] at h
          cases hrest : canonicalizeDeps canon rest with
          | error e => rw [hrest] at h; simp [Except.map] at h
          | ok r =>
            rw [hrest] at h
            simp only [Except.map, Except.ok.injEq] at h
            subst h
            rw [List.mem_cons] at hq
            rcases hq with rfl | hq
            · exact Or.inr (Or.inr ⟨List.mem_cons_self _ _, hcp⟩)
            · rcases ih r hrest q hq with h1 | h2 | h3
              · exact Or.inl ⟨List.mem_cons_of_mem p h1.1, h1.2⟩
              · exact Or.inr (Or.inl h2)
              · exact Or.inr (Or.inr ⟨List.mem_cons_of_mem p h3.1, h3.2⟩)
        | some fp =>
          rw [hcp] at h
          cases hrest : canonicalizeDeps canon rest with
          | error e => rw [hrest] at h; simp [Except.map] at h
          | ok r =>
            rw [hrest] at h
            simp only [Except.map, Except.ok.injEq] at h
            subst h
            rw [List.mem_cons] at hq
            rcases hq with rfl | hq
            · exact Or.inr (Or.inl ⟨habs p q hcp, p, hcp⟩)
            · rcases ih r hrest q hq with h1 | h2 | h3
              · exact Or.inl ⟨List.mem_cons_of_mem p h1.1, h1.2⟩
              · exact Or.inr (Or.inl h2)
              · exact Or.inr (Or.inr ⟨List.mem_cons_of_mem p h3.1, h3.2⟩)
    · rw [if_neg hp] at h
      cases hrest : canonicalizeDeps canon rest with
      | error e => rw [hrest] at h; simp [Except.map] at h
      | ok r =>
        rw [hrest] at h
        simp only [Except.map, Except.ok.injEq] at h
        subst h
        rw [List.mem_cons] at hq
        rcases hq with rfl | hq
        · exact Or.inl ⟨List.mem_cons_self _ _, by simpa using hp⟩
        · rcases ih r hrest q hq with h1 | h2 | h3
          · exact Or.inl ⟨List.mem_cons_of_mem p h1.1, h1.2⟩
          · exact Or.inr (Or.inl h2)
          · exact Or.inr (Or.inr ⟨List.mem_cons_of_mem p h3.1, h3.2⟩)

/-- A failed canonicalization is always the invalid-dependency-path error
and is caused by some token with a path separator that the filesystem
refused to canonicalize. -/
theorem canonicalizeDeps_err_spec (canon : String → Option (Option String)) :
    ∀ (l : List String) (e : IRustError), canonicalizeDeps canon l = Except.error e →
      e = IRustError.invalidDependencyPath ∧
      ∃ p, p ∈ l ∧ p.data.contains '/' = true ∧ canon p = none := by
  intro l
  induction l with
  | nil => intro e h; simp [canonicalizeDeps] at h
  | cons p rest ih =>
    intro e h
    simp only [canonicalizeDeps] at h
    by_cases hp : p.data.contains '/' = true
    · rw [if_pos hp] at h
      cases hcp : canon p with
      | none =>
        rw [hcp] at h
        injection h with he
        exact ⟨he.symm, p, List.mem_cons_self p rest, hp, hcp⟩
      | some fpOpt =>
        cases fpOpt with
        | none =>
          rw [hcp] at h
          cases hrest : canonicalizeDeps canon rest with
          | ok r => rw [hrest] at h; simp [Except.map] at h
          | error e2 =>
            rw [hrest] at h
            simp [Except.map] at h
            subst h
            obtain ⟨he, p2, hm, hc2, hn⟩ := ih e2 hrest
            exact ⟨he, p2, List.mem_cons_of_mem p hm, hc2, hn⟩
        | some fp =>
          rw [hcp] at h
          cases hrest : canonicalizeDeps canon rest with
          | ok r => rw [hrest] at h; simp [Except.map] at h
          | error e2 =>
            rw [hrest] at h
            simp [Except.map] at h
            subst h
            obtain ⟨he, p2, hm, hc2, hn⟩ := ih e2 hrest
            exact ⟨he, p2, List.mem_cons_of_mem p hm, hc2, hn⟩
    · rw [if_neg hp] at h
      cases hrest : canonicalizeDeps canon rest with
      | ok r => rw [hrest] at h; simp [Except.map] at h
      | error e2 =>
        rw [hrest] at h
        simp [Except.map] at h
        subst h
        obtain ⟨he, p2, hm, hc2, hn⟩ := ih e2 hrest
        exact ⟨he, p2, List.mem_cons_of_mem p hm, hc2, hn⟩

/-- C7 counterexample: when canonicalization of the path-form token `a/b`
succeeds but the canonical path is not valid UTF-8, lines 78-80 of
parser.rs silently keep the original token: a filesystem-path-form
specifier is recorded in relative, un-canonicalized form and the
operation still reports success instead of the claimed
absolute-path-or-InvalidDependencyPath behaviour. -/
theorem add_dep_nonutf8_path_kept_counterexample :
    add_dep canonNotUtf8 rebuildOk [] ":add x --path a/b" =
      (["x", "--path", "a/b"], Except.ok successPrinter) ∧
    ("a/b").data.contains '/' = true ∧
    strStartsWith "a/b" "/" = false := by
  refine ⟨rfl, by decide, by decide⟩

/-- C7 (amended): for every dependency specifier in filesystem-path form
(a token containing `/`), dependency addition looks up its filesystem
canonicalization before recording it: every recorded specifier is a
prior manifest entry, a token without a path separator, an absolute
canonicalized path, or a path-form token kept verbatim because its
canonical path is not valid UTF-8.  When canonicalization of some
path-form token fails the operation fails with InvalidDependencyPath
and records nothing, and when the post-record add/build tail fails its
error surfaces with the manifest mutation kept. -/
theorem add_dep_canonicalizes_paths
    (canon : String → Option (Option String))
    (rebuild : List String → Except IRustError Unit)
    (manifest : List String) (buffer : String)
    (habs : ∀ p q, canon p = some (some q) → strStartsWith q "/" = true) :
    (∀ q ∈ (add_dep canon rebuild manifest buffer).1,
        q ∈ manifest ∨ q.data.contains '/' = false ∨
        (strStartsWith q "/" = true ∧ ∃ p, canon p = some (some q)) ∨
        canon q = some none) ∧
    (∀ e, canonicalizeDeps canon ((splitWhitespace buffer).drop 1) = Except.error e →
        e = IRustError.invalidDependencyPath ∧
        add_dep canon rebuild manifest buffer =
          (manifest, Except.error IRustError.invalidDependencyPath) ∧
        ∃ p ∈ (splitWhitespace buffer).drop 1,
          p.data.contains '/' = true ∧ canon p = none) ∧
    (∀ dep e, canonicalizeDeps canon ((splitWhitespace buffer).drop 1) = Except.ok dep →
        rebuild dep = Except.error e →
        add_dep canon rebuild manifest buffer = (manifest ++ dep, Except.error e)) := by
  refine ⟨?_, ?_, ?_⟩
  · intro q hq
    cases hc : canonicalizeDeps canon ((splitWhitespace buffer).drop 1) with
    | error e0 =>
      have hre : add_dep canon rebuild manifest buffer = (manifest, Except.error e0) := by
        simp only [add_dep]
        rw [hc]
      rw [hre] at hq
      exact Or.inl hq
    | ok dep =>
      have h1 : (add_dep canon rebuild manifest buffer).1 = manifest ++ dep := by
        simp only [add_dep, hc]
        cases rebuild dep <;> rfl
      rw [h1] at hq
      rcases List.mem_append.mp hq with hq | hq
      · exact Or.inl hq
      · rcases canonicalizeDeps_ok_mem canon habs _ dep hc q hq with ⟨-, hnc⟩ | ⟨ha, hp⟩ | ⟨-, hsn⟩
        · exact Or.inr (Or.inl hnc)
        · exact Or.inr (Or.inr (Or.inl ⟨ha, hp⟩))
        · exact Or.inr (Or.inr (Or.inr hsn))
  · intro e he
    obtain ⟨h1, p, hm, hcp, hn⟩ := canonicalizeDeps_err_spec canon _ e he
    refine ⟨h1, ?_, p, hm, hcp, hn⟩
    subst h1
    simp only [add_dep]
    rw [he]
  · intro dep e hok hre
    simp only [add_dep, hok, hre]

/-- Witness for the amended C7: with a canonicalization oracle that
fails on every lookup, adding a path-form dependency records nothing and
reports InvalidDependencyPath. -/
theorem add_dep_canonicalizes_paths_witness :
    add_dep canonNone rebuildOk [] ":add x --path a/b" =
      ([], Except.error IRustError.invalidDependencyPath) :=
  ((add_dep_canonicalizes_paths canonNone rebuildOk [] ":add x --path a/b"
      (fun _ _ h => nomatch h)).2.1
    IRustError.invalidDependencyPath rfl).2.1

